import Mathlib

/-!
# LUMINA: client-side logic of the blog application

A shallow embedding of the application's own logic: the like / favorite
handlers of `PostCard` (src/components/blog/BlogGrid.js), the route gate
(src/components/auth/ProtectedRoute.js, src/routes/AppRoutes.js), the
client-side filter and sort of `MyPosts` (src/pages/MyPosts.js) and its
real-time patching, the search filter of `Home` (src/pages/Home.js), the
write helpers of src/lib/database.js, the form handlers of `CreatePost`
(src/pages/CreatePost.js) and `SignUp` (src/components/auth/SignUp.js), and
the start-up of `App` (src/App.js).

Event handlers are `async` functions that read the values captured by the
render they were created in, enqueue state updates, and wait for one remote
call.  They are embedded as a small command tree (`Handler`) whose `await`
node carries the continuation for the two outcomes of the remote call, and
`run` executes the tree against the component state, recording every
externally visible event together with the state at the moment a remote
call is issued.
-/

namespace Lumina

/-! ## Shared data -/

/-- The `user` object of the auth context; the handlers read only `id`. -/
structure User where
  id : String
deriving DecidableEq, Repr

/-- The `error` object returned by a remote call; only `message` is read. -/
structure RemoteError where
  message : String
deriving DecidableEq, Repr

/-- The remote writes issued by `PostCard`. -/
inductive Remote where
  /-- The call `supabase.from('post_likes').upsert(row)` with the row's three fields. -/
  | upsertPostLikes (post_id user_id : String) (liked : Bool)
  /-- The call `supabase.from('favorites').delete()` filtered on both ids. -/
  | deleteFavorites (post_id user_id : String)
  /-- The call `supabase.from('favorites').insert(row)` with the row's two fields. -/
  | insertFavorites (post_id user_id : String)
deriving DecidableEq, Repr

/-- The argument of a `toast(...)` call (`duration` and `isClosable` omitted). -/
structure Toast where
  title : String
  description : Option String
  status : String
deriving DecidableEq, Repr

/-! ### JavaScript numbers

`likeCount` is a JavaScript number, a binary64 float.  The counter holds
whole numbers (`post.likes || 0`, then steps of one), so its value is kept as
an integer and every `+` / `-` rounds the exact result to the nearest
binary64 value, ties to even, as the language does. -/

/-- The spacing of binary64 values at magnitude `m`: 1 below `2^53`, doubling
with every further power of two.  `fuel` bounds the number of doublings; the
finite binary64 range needs fewer than 1024. -/
def ulpOf : Nat → Nat → Nat
  | 0, _ => 1
  | fuel + 1, m => if m < 2 ^ 53 then 1 else 2 * ulpOf fuel (m / 2)

/-- The multiple of `q` nearest to `m`; a tie goes to the even multiple. -/
def roundHalfEven (m q : Nat) : Nat :=
  let lo := m / q
  let r := m % q
  if 2 * r < q then lo * q
  else if q < 2 * r then (lo + 1) * q
  else if lo % 2 = 0 then lo * q
  else (lo + 1) * q

/-- The binary64 value nearest to the integer `x` (round to nearest, ties to
even), for `x` within the finite binary64 range. -/
def toDouble (x : Int) : Int :=
  let r : Int := roundHalfEven x.natAbs (ulpOf 1100 x.natAbs)
  if x < 0 then -r else r

/-- JavaScript `a + b` on whole-number values. -/
def jsAdd (a b : Int) : Int :=
  toDouble (a + b)

/-- JavaScript `a - b` on whole-number values. -/
def jsSub (a b : Int) : Int :=
  toDouble (a - b)

/-- The local state of one `PostCard`: the three `useState` cells that the
like and favorite handlers write.  `likeCount` is the whole-number value of a
JavaScript number. -/
structure CardState where
  isLiked : Bool
  isFavorite : Bool
  likeCount : Int
deriving DecidableEq, Repr

/-- The body of an `async` event handler of `PostCard`, as a command tree.
`await req k` issues `req` and continues with `k error`, where `error` is
`none` when the remote call succeeded. -/
inductive Handler where
  | done : Handler
  | setIsLiked (v : Bool) (k : Handler) : Handler
  | setLikeCount (f : Int → Int) (k : Handler) : Handler
  | setIsFavorite (v : Bool) (k : Handler) : Handler
  | onRemoveFromFavorites (postId : String) (k : Handler) : Handler
  | toast (t : Toast) (k : Handler) : Handler
  | consoleError (msg : String) (k : Handler) : Handler
  | await (req : Remote) (k : Option RemoteError → Handler) : Handler

/-- What a handler run makes visible outside the component state. -/
inductive Event where
  /-- A remote call was issued; `atIssue` is the component state at that moment. -/
  | remote (req : Remote) (atIssue : CardState)
  | removedFromFavorites (postId : String)
  | toast (t : Toast)
  | consoleError (msg : String)
deriving DecidableEq, Repr

/-- Execute a handler from state `s`; `respond` is the backend's answer to a
remote call.  Returns the events in program order and the final state. -/
def run (respond : Remote → Option RemoteError) : Handler → CardState → List Event × CardState
  | .done, s => ([], s)
  | .setIsLiked v k, s => run respond k { s with isLiked := v }
  | .setLikeCount f k, s => run respond k { s with likeCount := f s.likeCount }
  | .setIsFavorite v k, s => run respond k { s with isFavorite := v }
  | .onRemoveFromFavorites postId k, s =>
      let r := run respond k s
      (Event.removedFromFavorites postId :: r.1, r.2)
  | .toast t k, s =>
      let r := run respond k s
      (Event.toast t :: r.1, r.2)
  | .consoleError msg k, s =>
      let r := run respond k s
      (Event.consoleError msg :: r.1, r.2)
  | .await req k, s =>
      let r := run respond (k (respond req)) s
      (Event.remote req s :: r.1, r.2)

/-- The remote calls of an event list, each with the state at its issue. -/
def remoteCalls : List Event → List (Remote × CardState)
  | [] => []
  | Event.remote req s :: es => (req, s) :: remoteCalls es
  | _ :: es => remoteCalls es

/-- The post ids passed to the `onRemoveFromFavorites` callback. -/
def removedCalls : List Event → List String
  | [] => []
  | Event.removedFromFavorites postId :: es => postId :: removedCalls es
  | _ :: es => removedCalls es

/-! ## PostCard (src/components/blog/BlogGrid.js) -/

namespace PostCard

/-- Embeds `handleLike` (BlogGrid.js 94-133).  `isLiked` is the value
captured by the render that created the handler. -/
def handleLike (user : Option User) (postId : String) (isLiked : Bool) : Handler :=
  match user with
  | none =>
      .toast ⟨"Sign in required", some "Please sign in to like posts", "info"⟩ .done
  | some user =>
      let newLikeStatus := !isLiked
      .setIsLiked newLikeStatus <|
      .setLikeCount (fun prev => if newLikeStatus then jsAdd prev 1 else jsSub prev 1) <|
      .await (.upsertPostLikes postId user.id newLikeStatus) fun error =>
        match error with
        | none => .done
        | some error =>
            .consoleError "Error updating like:" <|
            .setIsLiked (!isLiked) <|
            .setLikeCount (fun prev => if isLiked then jsAdd prev 1 else jsSub prev 1) <|
            .toast ⟨"Error updating like", some error.message, "error"⟩ .done

/-- Embeds `handleFavorite` (BlogGrid.js 135-194).  `isFavorite` is the value
captured by the render; `hasOnRemove` says whether the optional
`onRemoveFromFavorites` prop was passed. -/
def handleFavorite (user : Option User) (postId : String) (isFavorite : Bool)
    (hasOnRemove : Bool) : Handler :=
  match user with
  | none =>
      .toast ⟨"Sign in required", some "Please sign in to favorite posts", "info"⟩ .done
  | some user =>
      let onError : RemoteError → Handler := fun error =>
        .consoleError "Error updating favorite:" <|
        .toast ⟨"Error updating favorite", some error.message, "error"⟩ .done
      if isFavorite then
        .await (.deleteFavorites postId user.id) fun error =>
          match error with
          | some error => onError error
          | none =>
              .setIsFavorite false <|
              (if hasOnRemove then Handler.onRemoveFromFavorites postId else id) <|
              .toast ⟨"Removed from favorites", none, "success"⟩ .done
      else
        .await (.insertFavorites postId user.id) fun error =>
          match error with
          | some error => onError error
          | none =>
              .setIsFavorite true <|
              .toast ⟨"Added to favorites", none, "success"⟩ .done

/-- A click on the like button: the handler of the current render runs
against the current state. -/
def clickLike (user : Option User) (postId : String)
    (respond : Remote → Option RemoteError) (s : CardState) : List Event × CardState :=
  run respond (handleLike user postId s.isLiked) s

/-- A click on the favorite button. -/
def clickFavorite (user : Option User) (postId : String) (hasOnRemove : Bool)
    (respond : Remote → Option RemoteError) (s : CardState) : List Event × CardState :=
  run respond (handleFavorite user postId s.isFavorite hasOnRemove) s

end PostCard

/-! ## Route gating (src/components/auth/ProtectedRoute.js, src/routes/AppRoutes.js) -/

/-- The value of `useAuth()` that the route components read. -/
structure Auth where
  user : Option User
  loading : Bool
deriving DecidableEq, Repr

/-- The page components mounted by `AppRoutes`. -/
inductive Page where
  | SignIn | SignUp | ResetPassword | Home | Profile | Settings | CreatePost | MyPosts
  | Favorites
deriving DecidableEq, Repr

/-- What a route renders: a `Navigate` redirect, the centred spinner, a page
component, or the `MainLayout` frame (with or without the `Sidebar`) around
its children. -/
inductive Rendered where
  | navigate (target : String) (replace : Bool)
  | spinner
  | page (p : Page)
  | mainLayout (sidebar : Bool) (children : Rendered)
deriving DecidableEq, Repr

/-- The page components that occur in a rendered tree. -/
def Rendered.pages : Rendered → List Page
  | .navigate _ _ => []
  | .spinner => []
  | .page p => [p]
  | .mainLayout _ children => children.pages

/-- Embeds `ProtectedRoute` (ProtectedRoute.js 5-21). -/
def ProtectedRoute (auth : Auth) (children : Rendered) : Rendered :=
  if auth.loading then
    .spinner
  else if auth.user.isNone then
    .navigate "/signin" false
  else
    children

/-- Embeds `MainLayout` (AppRoutes.js 17-37): the sidebar is shown when a
user is present. -/
def MainLayout (auth : Auth) (children : Rendered) : Rendered :=
  .mainLayout auth.user.isSome children

/-- Embeds `AppRoutes` (AppRoutes.js 39-142): the element of the route that
matches `path`, rendered under `auth`.  Paths are compared exactly; the
router's case-insensitive and trailing-slash matching is not modelled. -/
def AppRoutes (auth : Auth) (path : String) : Rendered :=
  if path = "/signin" then
    if auth.user.isSome then .navigate "/" false else MainLayout auth (.page .SignIn)
  else if path = "/signup" then
    if auth.user.isSome then .navigate "/" false else MainLayout auth (.page .SignUp)
  else if path = "/reset-password" then
    if auth.user.isSome then .navigate "/" false else MainLayout auth (.page .ResetPassword)
  else if path = "/" then
    MainLayout auth (.page .Home)
  else if path = "/profile" then
    ProtectedRoute auth (MainLayout auth (.page .Profile))
  else if path = "/settings" then
    ProtectedRoute auth (MainLayout auth (.page .Settings))
  else if path = "/create-post" then
    ProtectedRoute auth (MainLayout auth (.page .CreatePost))
  else if path = "/my-posts" then
    ProtectedRoute auth (MainLayout auth (.page .MyPosts))
  else if path = "/favorites" then
    ProtectedRoute auth (MainLayout auth (.page .Favorites))
  else
    .navigate "/" true

/-- The five paths wrapped in `ProtectedRoute`. -/
def protectedPaths : List String :=
  ["/profile", "/settings", "/create-post", "/my-posts", "/favorites"]

/-- The three authentication paths. -/
def authPaths : List String :=
  ["/signin", "/signup", "/reset-password"]

/-! ## MyPosts (src/pages/MyPosts.js) -/

/-- A row of the `posts` table as the list code reads it.  `tags`, `status`
and `views` may be missing (`none`); `title` and `content` are strings. -/
structure Post where
  id : String
  title : String
  content : String
  tags : Option (List String)
  status : Option String
  created_at : String
  views : Option Int
deriving DecidableEq, Repr

/-- Models `String.prototype.includes`: `q` occurs in `s` as a contiguous run. -/
def includes (s q : String) : Bool :=
  decide (q.data <:+: s.data)

/-- JavaScript truthiness of a `string | null` value: `null` and the empty
string are falsy. -/
def truthy : Option String → Bool
  | none => false
  | some s => s != ""

/-- Models the value of `views || 0`: a missing or zero `views` gives 0. -/
def orZero : Option Int → Int
  | none => 0
  | some n => if n = 0 then 0 else n

/-- Models `Array.prototype.sort(compareFn)`: a stable sort in which `a`
stays before `b` when `compareFn(a, b)` is not positive.  The comparator
returns `none` for `NaN`, which the sort treats as `+0`.  The model fixes the
result only for a consistent comparator; for an inconsistent one the order
is left to the engine. -/
def sort {α : Type} (compareFn : α → α → Option Int) (xs : List α) : List α :=
  xs.insertionSort (fun a b => (compareFn a b).getD 0 ≤ 0)

/-- Models the subtraction of two `Date` objects: the difference of their
time values, `NaN` (`none`) when either date is invalid. -/
def dateSub (a b : Option Int) : Option Int :=
  match a, b with
  | some x, some y => some (x - y)
  | _, _ => none

namespace MyPosts

/-- Embeds `filterPosts` (MyPosts.js 158-167).  `toLowerCase` is the
runtime's `String.prototype.toLowerCase`; `searchQuery`, `selectedTags` and
`statusFilter` are the component values the closure reads. -/
def filterPosts (toLowerCase : String → String) (searchQuery : String)
    (selectedTags : List String) (statusFilter : Option String)
    (posts : List Post) : List Post :=
  posts.filter fun post =>
    let matchesSearch :=
      includes (toLowerCase post.title) (toLowerCase searchQuery) ||
        includes (toLowerCase post.content) (toLowerCase searchQuery)
    let matchesTags :=
      selectedTags.length == 0 ||
        selectedTags.all fun tag =>
          match post.tags with
          | none => false
          | some tags => tags.contains tag
    let matchesStatus := !truthy statusFilter || post.status == statusFilter
    matchesSearch && matchesTags && matchesStatus

/-- Embeds `sortPosts` (MyPosts.js 169-180).  `Date` maps a `created_at`
string to its time value in milliseconds, `none` for an invalid date. -/
def sortPosts (Date : String → Option Int) (sortBy : String) (posts : List Post) :
    List Post :=
  if sortBy = "newest" then
    sort (fun a b => dateSub (Date b.created_at) (Date a.created_at)) posts
  else if sortBy = "oldest" then
    sort (fun a b => dateSub (Date a.created_at) (Date b.created_at)) posts
  else if sortBy = "popular" then
    sort (fun a b => some (orZero b.views - orZero a.views)) posts
  else
    posts

end MyPosts

/-! ### The filter condition as the specification words it -/

/-- The search condition: the lower-cased title or the lower-cased content
contains the lower-cased query. -/
def MatchesSearch (toLowerCase : String → String) (searchQuery : String) (post : Post) : Prop :=
  (toLowerCase searchQuery).data <:+: (toLowerCase post.title).data ∨
    (toLowerCase searchQuery).data <:+: (toLowerCase post.content).data

/-- The tag condition: every selected tag is one of the post's tags (a post
without `tags` has none). -/
def MatchesTags (selectedTags : List String) (post : Post) : Prop :=
  ∀ tag ∈ selectedTags, tag ∈ post.tags.getD []

/-- The status condition as stated: the filter is absent or equals the
post's status. -/
def MatchesStatus (statusFilter : Option String) (post : Post) : Prop :=
  statusFilter = none ∨ post.status = statusFilter

/-- The status condition of the code: the filter is absent or empty, or
equals the post's status. -/
def MatchesStatusOrEmpty (statusFilter : Option String) (post : Post) : Prop :=
  statusFilter = none ∨ statusFilter = some "" ∨ post.status = statusFilter

/-! ### Sample values for concrete evaluation -/

/-- An instance of `toLowerCase` on ASCII letters. -/
def lowerAscii (s : String) : String :=
  ⟨s.data.map Char.toLower⟩

/-- A draft post. -/
def draftPost : Post :=
  ⟨"p1", "Hello World", "first body", some ["news", "lean"], some "draft", "2024-01-02",
    some 5⟩

/-- A published post without tags and without a view count. -/
def publishedPost : Post :=
  ⟨"p2", "Other", "say hello", none, some "published", "2024-01-01", none⟩

/-- A post with a view count of 7. -/
def viewedPost : Post :=
  ⟨"p3", "Third", "zzz", some ["news"], some "published", "2024-01-03", some 7⟩

/-- A `Date` reading of the three sample timestamps as day numbers. -/
def sampleDate (created_at : String) : Option Int :=
  if created_at = "2024-01-01" then some 1
  else if created_at = "2024-01-02" then some 2
  else if created_at = "2024-01-03" then some 3
  else none

/-- The time value of the sample posts under `sampleDate`. -/
def sampleTime (p : Post) : Int :=
  (sampleDate p.created_at).getD 0

/-! ## Home (src/pages/Home.js) -/

/-- A fetched post as the search filter of `Home` reads it: `title` and
`content` may be missing (`null` or `undefined`). -/
structure FeedPost where
  id : String
  title : Option String
  content : Option String
deriving DecidableEq, Repr

namespace Home

/-- Embeds `filteredPosts` (Home.js 146-149).  An optional chain on a missing
field yields `undefined`, which is falsy. -/
def filteredPosts (toLowerCase : String → String) (searchQuery : String)
    (posts : List FeedPost) : List FeedPost :=
  posts.filter fun post =>
    (match post.title with
      | none => false
      | some title => includes (toLowerCase title) (toLowerCase searchQuery)) ||
    (match post.content with
      | none => false
      | some content => includes (toLowerCase content) (toLowerCase searchQuery))

end Home

/-! ## Database helpers (src/lib/database.js) -/

/-- A JavaScript value as the helpers can receive it for a field. -/
inductive JsValue where
  | undefined
  | null
  | str (s : String)
  | num (n : Int)
  | bool (b : Bool)
deriving DecidableEq, Repr

/-- JavaScript truthiness of a value. -/
def JsValue.truthy : JsValue → Bool
  | .undefined => false
  | .null => false
  | .str s => s != ""
  | .num n => n != 0
  | .bool b => b

/-- Models `Array.prototype.includes` on an array of strings: only a string
value can be a member. -/
def arrayIncludes (xs : List String) : JsValue → Bool
  | .str s => xs.contains s
  | _ => false

/-- Available categories (database.js 4-12). -/
def POST_CATEGORIES : List String :=
  ["technology", "lifestyle", "travel", "food", "health", "business", "other"]

/-- Available post statuses (database.js 15-19). -/
def POST_STATUSES : List String :=
  ["draft", "published", "archived"]

/-- The row that `createPost` inserts into `posts`. -/
structure PostInsert where
  title : JsValue
  content : JsValue
  category : JsValue
  image_url : JsValue
  status : JsValue
  author_id : String
deriving DecidableEq, Repr

/-- The `updates` argument of `updatePost`: `category` and `status` are
`undefined` when the object has no such field; `others` are the remaining
fields. -/
structure PostUpdates where
  category : JsValue
  status : JsValue
  others : List (String × JsValue)
deriving DecidableEq, Repr

/-- The table writes issued by the helpers. -/
inductive DbWrite where
  /-- The call `from('posts').insert([row])`. -/
  | insertPosts (row : PostInsert)
  /-- The call `from('posts').update(payload)` filtered on `id` and `author_id`;
  the payload is `updates` spread, then `updated_at`. -/
  | updatePosts (updates : PostUpdates) (updated_at : String) (id : String)
      (author_id : String)
  /-- The call `from('profiles').upsert(row)`; the row is `id`, then `profile`
  spread, then `updated_at`. -/
  | upsertProfiles (id : String) (profile : List (String × JsValue)) (updated_at : String)
  /-- The call `from('posts').delete()` filtered on `id` and `author_id`. -/
  | deletePosts (id : String) (author_id : String)
deriving DecidableEq, Repr

/-- The answer of the backend to a write: the selected row (kept abstract as
a string) and the error, one of which is `null`. -/
structure DbResponse where
  data : Option String
  error : Option RemoteError
deriving DecidableEq, Repr

/-- The value `{ data, error }` returned by `createPost`, `updatePost` and
`updateProfile`. -/
structure DataResult where
  data : Option String
  error : Option RemoteError
deriving DecidableEq, Repr

/-- The value `{ success, error }` returned by `deletePost`. -/
structure SuccessResult where
  success : Bool
  error : Option RemoteError
deriving DecidableEq, Repr

/-- The parameter of `createPost` before the destructuring defaults are
applied: a field that is missing is `undefined`. -/
structure CreatePostArgs where
  title : JsValue
  content : JsValue
  category : JsValue
  image_url : JsValue
  status : JsValue
deriving DecidableEq, Repr

/-- A destructuring default: it replaces `undefined` only. -/
def withDefault (v d : JsValue) : JsValue :=
  match v with
  | .undefined => d
  | v => v

/-- Embeds `createPost` (database.js 179-223).  `getUser` is the user of
`supabase.auth.getUser()`; the result is the list of table writes issued and
the returned value.  The `console.error` of the catch block is left out. -/
def createPost (getUser : Option User) (respond : DbWrite → DbResponse)
    (args : CreatePostArgs) : List DbWrite × DataResult :=
  let category := withDefault args.category (.str "other")
  let image_url := withDefault args.image_url .null
  let status := withDefault args.status (.str "published")
  match getUser with
  | none => ([], ⟨none, some ⟨"User not authenticated"⟩⟩)
  | some user =>
      let category := if !arrayIncludes POST_CATEGORIES category then .str "other" else category
      let status := if !arrayIncludes POST_STATUSES status then .str "published" else status
      let write := DbWrite.insertPosts
        ⟨args.title, args.content, category, image_url, status, user.id⟩
      let r := respond write
      match r.error with
      | some error => ([write], ⟨none, some error⟩)
      | none => ([write], ⟨r.data, none⟩)

/-- Embeds `updatePost` (database.js 225-265).  `now` is the value of
`new Date().toISOString()`. -/
def updatePost (getUser : Option User) (respond : DbWrite → DbResponse) (now : String)
    (postId : String) (updates : PostUpdates) : List DbWrite × DataResult :=
  match getUser with
  | none => ([], ⟨none, some ⟨"User not authenticated"⟩⟩)
  | some user =>
      let updates : PostUpdates :=
        if updates.category.truthy && !arrayIncludes POST_CATEGORIES updates.category then
          { updates with category := .str "other" }
        else updates
      let updates : PostUpdates :=
        if updates.status.truthy && !arrayIncludes POST_STATUSES updates.status then
          { updates with status := .str "published" }
        else updates
      let write := DbWrite.updatePosts updates now postId user.id
      let r := respond write
      match r.error with
      | some error => ([write], ⟨none, some error⟩)
      | none => ([write], ⟨r.data, none⟩)

/-- Embeds `updateProfile` (database.js 267-288). -/
def updateProfile (getUser : Option User) (respond : DbWrite → DbResponse) (now : String)
    (profile : List (String × JsValue)) : List DbWrite × DataResult :=
  match getUser with
  | none => ([], ⟨none, some ⟨"User not authenticated"⟩⟩)
  | some user =>
      let write := DbWrite.upsertProfiles user.id profile now
      let r := respond write
      match r.error with
      | some error => ([write], ⟨none, some error⟩)
      | none => ([write], ⟨r.data, none⟩)

/-- Embeds `deletePost` (database.js 314-331). -/
def deletePost (getUser : Option User) (respond : DbWrite → DbResponse)
    (postId : String) : List DbWrite × SuccessResult :=
  match getUser with
  | none => ([], ⟨false, some ⟨"User not authenticated"⟩⟩)
  | some user =>
      let write := DbWrite.deletePosts postId user.id
      let r := respond write
      match r.error with
      | some error => ([write], ⟨false, some error⟩)
      | none => ([write], ⟨true, none⟩)

/-- The category written by an update, when the write is one. -/
def DbWrite.writtenCategory : DbWrite → Option JsValue
  | .updatePosts updates _ _ _ => some updates.category
  | .insertPosts row => some row.category
  | _ => none

/-- The status written by an update or insert, when the write is one. -/
def DbWrite.writtenStatus : DbWrite → Option JsValue
  | .updatePosts updates _ _ _ => some updates.status
  | .insertPosts row => some row.status
  | _ => none

/-- The outcome `{ success, error }` of `resetDatabase`; `error` is a message
string or `null`. -/
structure ResetResult where
  success : Bool
  error : Option String
deriving DecidableEq, Repr

/-- Embeds `resetDatabase` (database.js 21-64).  `upsert` is the outcome of
the awaited `profiles` upsert: rejected with an exception, or resolved with
its `error` field; `rpcRejected` is the exception of the first of the three
awaited `rpc` calls that rejects, if any (their results are not inspected). -/
def resetDatabase (upsert : Except RemoteError (Option RemoteError))
    (rpcRejected : Option RemoteError) : ResetResult :=
  match upsert with
  | .error error => ⟨false, some error.message⟩
  | .ok (some profileError) => ⟨false, some profileError.message⟩
  | .ok none =>
      match rpcRejected with
      | some error => ⟨false, some error.message⟩
      | none => ⟨true, none⟩

/-! ## App (src/App.js) -/

/-- The `user` of a session; `initializeApp` reads only `role`. -/
structure SessionUser where
  role : Option String
deriving DecidableEq, Repr

/-- The `session` object returned by `getSession`. -/
structure Session where
  user : Option SessionUser
deriving DecidableEq, Repr

/-- The resolved value of `supabase.auth.getSession()`. -/
structure GetSession where
  session : Option Session
  error : Option RemoteError
deriving DecidableEq, Repr

/-- The two state cells of `App`. -/
structure AppState where
  isInitializing : Bool
  initError : Option String
deriving DecidableEq, Repr

namespace App

/-- Embeds `initializeApp` (App.js 16-34).  Returns whether `resetDatabase`
was called, and the state after the function has finished. -/
def initializeApp (getSession : GetSession) (upsert : Except RemoteError (Option RemoteError))
    (rpcRejected : Option RemoteError) (s : AppState) : Bool × AppState :=
  let caught (message : String) : AppState :=
    { { s with initError := some message } with isInitializing := false }
  match getSession.error with
  | some authError => (false, caught authError.message)
  | none =>
      if (getSession.session.bind fun session => session.user.bind fun user => user.role)
          == some "service_role" then
        let dbError := (resetDatabase upsert rpcRejected).error
        if truthy dbError then
          (true, caught (dbError.getD ""))
        else
          (true, { s with isInitializing := false })
      else
        (false, { s with isInitializing := false })

end App

/-! ## CreatePost (src/pages/CreatePost.js) -/

/-- A file chosen in the image input; the code reads `name` and `size`. -/
structure File where
  name : String
  size : Nat
deriving DecidableEq, Repr

/-- The `image` and `imagePreview` state cells of `CreatePost`. -/
structure ImageState where
  image : Option File
  imagePreview : String
deriving DecidableEq, Repr

/-- The row that `handleSubmit` inserts into `posts`. -/
structure NewPost where
  title : String
  content : String
  category : String
  image_url : Option String
  author : String
  status : String
  created_at : String
deriving DecidableEq, Repr

/-- What a run of `CreatePost.handleSubmit` does, in program order. -/
inductive SubmitEvent where
  | toast (t : Toast)
  | setLoading (v : Bool)
  | getBucket (id : String)
  | createBucket (id : String) (isPublic : Bool) (fileSizeLimit : Nat)
  | upload (bucket : String) (path : String) (file : File)
  | insertPosts (row : NewPost)
  | navigate (path : String)
  | consoleError (message : String)
deriving DecidableEq, Repr

/-- Whether an event is a storage or table call. -/
def SubmitEvent.isRemote : SubmitEvent → Bool
  | .getBucket _ => true
  | .createBucket _ _ _ => true
  | .upload _ _ _ => true
  | .insertPosts _ => true
  | _ => false

/-- The environment of one submission: the answers of the backend, the
random-and-time stem of the file name, and the current time as ISO string. -/
structure SubmitEnv where
  bucketExists : Bool
  createBucketError : Option RemoteError
  uploadError : Option RemoteError
  publicUrl : String → String
  postError : Option RemoteError
  unique : String
  now : String

namespace CreatePost

/-- Embeds `handleImageChange` (CreatePost.js 40-60).  `file` is
`e.target.files[0]`; `readAsDataURL` is the result the `FileReader` delivers
to `onloadend`. -/
def handleImageChange (readAsDataURL : File → String) (file : Option File)
    (s : ImageState) : List Toast × ImageState :=
  match file with
  | none => ([], s)
  | some file =>
      if file.size > 5 * 1024 * 1024 then
        ([⟨"File too large", some "Please select an image under 5MB", "error"⟩], s)
      else
        ([], { { s with image := some file } with imagePreview := readAsDataURL file })

/-- The exception raised by reading `user.id` when `user` is `null`. -/
def nullUserError : RemoteError :=
  ⟨"Cannot read properties of null (reading 'id')"⟩

/-- Embeds `handleSubmit` (CreatePost.js 67-165).  `trim` is the runtime's
`String.prototype.trim`; `title`, `content`, `category`, `image` and `user`
are the values captured by the render. -/
def handleSubmit (trim : String → String) (env : SubmitEnv) (user : Option User)
    (title content category : String) (image : Option File) : List SubmitEvent :=
  if trim title == "" || trim content == "" || category == "" then
    [.toast ⟨"Missing fields", some "Please fill in all required fields", "error"⟩]
  else
    let caught (error : RemoteError) : List SubmitEvent :=
      [.consoleError "Error:", .toast ⟨"Error creating post", some error.message, "error"⟩,
        .setLoading false]
    let createThePost (imageUrl : Option String) : List SubmitEvent :=
      match user with
      | none => caught nullUserError
      | some user =>
          let insert := SubmitEvent.insertPosts
            ⟨trim title, trim content, category, imageUrl, user.id, "published", env.now⟩
          match env.postError with
          | some postError => insert :: caught postError
          | none =>
              [insert, .toast ⟨"Post created successfully", none, "success"⟩,
                .navigate "/my-posts", .setLoading false]
    .setLoading true ::
      match image with
      | none => createThePost none
      | some image =>
          match user with
          | none => caught nullUserError
          | some user =>
              let fileExt := (image.name.splitOn ".").getLastD ""
              let fileName := env.unique ++ "." ++ fileExt
              let filePath := user.id ++ "/" ++ fileName
              let uploadIt : List SubmitEvent :=
                SubmitEvent.upload "blog-images" filePath image ::
                  match env.uploadError with
                  | some uploadError => caught uploadError
                  | none => createThePost (some (env.publicUrl filePath))
              .getBucket "blog-images" ::
                if !env.bucketExists then
                  .createBucket "blog-images" true 5242880 ::
                    match env.createBucketError with
                    | some createBucketError => caught createBucketError
                    | none => uploadIt
                else
                  uploadIt

end CreatePost

/-! ## SignUp (src/components/auth/SignUp.js) -/

/-- What a run of `SignUp.handleSubmit` does, in program order. -/
inductive SignUpEvent where
  | toast (t : Toast)
  | setLoading (v : Bool)
  | signUp (email : String) (password : String)
  | navigate (path : String)
deriving DecidableEq, Repr

/-- The `loading` flag after a list of events: the last `setLoading` wins. -/
def SignUpEvent.loadingAfter (loading : Bool) : List SignUpEvent → Bool
  | [] => loading
  | .setLoading v :: es => SignUpEvent.loadingAfter v es
  | _ :: es => SignUpEvent.loadingAfter loading es

namespace SignUp

/-- Embeds `handleSubmit` (SignUp.js 51-86).  `signUpError` is the `error`
field of the resolved `signUp(email, password)`. -/
def handleSubmit (signUpError : Option RemoteError)
    (email password confirmPassword _username : String) : List SignUpEvent :=
  if password != confirmPassword then
    [.toast ⟨"Error", some "Passwords do not match", "error"⟩]
  else
    .setLoading true :: .signUp email password ::
      match signUpError with
      | some error => [.toast ⟨"Error", some error.message, "error"⟩, .setLoading false]
      | none =>
          [.toast ⟨"Account created.", some "Please check your email for verification.",
              "success"⟩,
            .navigate "/signin", .setLoading false]

end SignUp

/-! ## MyPosts real-time subscription (src/pages/MyPosts.js 50-73) -/

/-- The payload of a `postgres_changes` event: the event type and the new and
old rows. -/
structure Payload where
  eventType : String
  new : Post
  old : Post
deriving DecidableEq, Repr

namespace MyPosts

/-- Embeds the subscription callback (MyPosts.js 61-71) as the update it
applies to the `posts` state. -/
def onPostgresChanges (payload : Payload) (current : List Post) : List Post :=
  if payload.eventType = "INSERT" then
    payload.new :: current
  else if payload.eventType = "DELETE" then
    current.filter fun post => post.id != payload.old.id
  else if payload.eventType = "UPDATE" then
    current.map fun post => if post.id = payload.new.id then payload.new else post
  else
    current

end MyPosts

/-- An instance of `trim` that strips leading and trailing spaces. -/
def trimSpaces (s : String) : String :=
  ⟨((s.data.dropWhile (fun c => c == ' ')).reverse.dropWhile (fun c => c == ' ')).reverse⟩

/-- A backend that answers every call of a submission without error. -/
def okEnv : SubmitEnv :=
  ⟨true, none, none, id, none, "k3x9_1704067200000", "2024-01-01T00:00:00.000Z"⟩

namespace MyPosts

/-- Embeds `handleDeletePost` (MyPosts.js 131-156).  `deleteError` is the
`error` of the awaited remote delete; `posts` is the list captured by the
render that created the handler and `current` the state when the call
returns.  The result is the toast shown and the `posts` state afterwards. -/
def handleDeletePost (deleteError : Option RemoteError) (postId : String)
    (posts current : List Post) : Toast × List Post :=
  match deleteError with
  | none =>
      (⟨"Post deleted", none, "success"⟩, posts.filter fun post => post.id != postId)
  | some error =>
      (⟨"Error deleting post", some error.message, "error"⟩, current)

end MyPosts

/-- The ids of a posts list, in order (the `key` of each rendered card). -/
def postIds (posts : List Post) : List String :=
  posts.map fun post => post.id

/-! ## Theorems -/

/-! ### PostCard: like and favorite handlers -/

/-- C1 (code evaluated at the failing path): with a signed-in user and an
upsert that reports an error, `handleLike` ends with `isLiked` equal to the
negation of its value before the click, for both values of the flag; the
catch block writes `!isLiked` from the stale captured value, the same value
the optimistic step wrote, so the flag is not rolled back. -/
theorem PostCard.handleLike_error_leaves_flag_flipped (u : User) (postId : String)
    (err : RemoteError) (s : CardState) :
    (PostCard.clickLike (some u) postId (fun _ => some err) s).2.isLiked = !s.isLiked ∧
      (PostCard.clickLike (some u) postId (fun _ => some err) s).2.isLiked ≠ s.isLiked := by
  cases s with
  | mk isLiked isFavorite likeCount =>
    cases isLiked <;> simp [PostCard.clickLike, PostCard.handleLike, run]

/-- Below `2^53` the binary64 spacing is 1. -/
theorem ulpOf_small (fuel m : Nat) (h : m < 2 ^ 53) : ulpOf (fuel + 1) m = 1 := by
  unfold ulpOf
  rw [if_pos h]

/-- Rounding to a multiple of 1 changes nothing. -/
theorem roundHalfEven_one (m : Nat) : roundHalfEven m 1 = m := by
  simp [roundHalfEven, Nat.mod_one]

/-- Every integer of magnitude below `2^53` is a binary64 value. -/
theorem toDouble_of_lt (x : Int) (h : x.natAbs < 2 ^ 53) : toDouble x = x := by
  have hr : roundHalfEven x.natAbs (ulpOf 1100 x.natAbs) = x.natAbs := by
    rw [show (1100 : Nat) = 1099 + 1 from rfl, ulpOf_small 1099 _ h, roundHalfEven_one]
  unfold toDouble
  simp only [hr]
  split <;> omega

/-- Every integer of magnitude at most `2^53` is a binary64 value. -/
theorem toDouble_of_le (x : Int) (h : x.natAbs ≤ 2 ^ 53) : toDouble x = x := by
  rcases Nat.lt_or_eq_of_le h with hlt | heq
  · exact toDouble_of_lt x hlt
  · have hx : x = 9007199254740992 ∨ x = -9007199254740992 := by omega
    rcases hx with rfl | rfl <;> decide

/-- On a safe integer, `+ 1` is exact. -/
theorem jsAdd_one_of_safe (n : Int) (h : n.natAbs < 2 ^ 53) : jsAdd n 1 = n + 1 :=
  toDouble_of_le (n + 1) (by omega)

/-- On a safe integer, `- 1` is exact. -/
theorem jsSub_one_of_safe (n : Int) (h : n.natAbs < 2 ^ 53) : jsSub n 1 = n - 1 :=
  toDouble_of_le (n - 1) (by omega)

/-- C2 as stated fails: with a signed-in user, a card that is not liked and
`likeCount = 2^53`, a failing upsert leaves `likeCount` at `2^53 - 1`: the
optimistic `prev + 1` rounds back to `2^53` and the rollback `prev - 1` is
exact. -/
theorem PostCard.handleLike_error_count_off_at_2_53 :
    (PostCard.clickLike (some ⟨"u1"⟩) "p1" (fun _ => some ⟨"network"⟩)
        ⟨false, false, 9007199254740992⟩).2.likeCount = 9007199254740991 ∧
      (PostCard.clickLike (some ⟨"u1"⟩) "p1" (fun _ => some ⟨"network"⟩)
        ⟨false, false, 9007199254740992⟩).2.likeCount ≠
          (⟨false, false, 9007199254740992⟩ : CardState).likeCount := by
  decide

/-- C2 amended: with a signed-in user, for every safe integer `likeCount`
(magnitude below `2^53`) and every value of `isLiked`, if the `post_likes`
upsert reports an error then after `handleLike` finishes `likeCount` equals
the value it had before the click. -/
theorem PostCard.handleLike_error_restores_likeCount (u : User) (postId : String)
    (respond : Remote → Option RemoteError) (s : CardState) (err : RemoteError)
    (hsafe : s.likeCount.natAbs < 2 ^ 53)
    (herr : respond (Remote.upsertPostLikes postId u.id (!s.isLiked)) = some err) :
    (PostCard.clickLike (some u) postId respond s).2.likeCount = s.likeCount := by
  cases s with
  | mk isLiked isFavorite likeCount =>
    have hadd := jsAdd_one_of_safe likeCount hsafe
    have hsub := jsSub_one_of_safe likeCount hsafe
    have hback : jsSub (likeCount + 1) 1 = likeCount := by
      have h := toDouble_of_lt likeCount hsafe
      simpa [jsSub] using h
    have hforth : jsAdd (likeCount - 1) 1 = likeCount := by
      have h := toDouble_of_lt likeCount hsafe
      simpa [jsAdd] using h
    cases isLiked <;> simp [PostCard.clickLike, PostCard.handleLike, run] at herr ⊢ <;>
      simp [herr, run, hadd, hsub, hback, hforth]

/-- Witness for C2: a card with 3 likes, not yet liked, and a failing upsert. -/
theorem PostCard.handleLike_error_restores_likeCount_witness :
    (PostCard.clickLike (some ⟨"u1"⟩) "p1" (fun _ => some ⟨"network"⟩)
      ⟨false, false, 3⟩).2.likeCount = 3 :=
  PostCard.handleLike_error_restores_likeCount ⟨"u1"⟩ "p1" (fun _ => some ⟨"network"⟩)
    ⟨false, false, 3⟩ ⟨"network"⟩ (by decide) rfl

/-- C3 as stated fails: with a signed-in user, a card that is not liked and
`likeCount = 2^53`, the state at the issue of the upsert does not hold
`likeCount + 1`; the optimistic `prev + 1` rounds back to `2^53`. -/
theorem PostCard.handleLike_optimistic_count_off_at_2_53 :
    remoteCalls (PostCard.clickLike (some ⟨"u1"⟩) "p1" (fun _ => none)
        ⟨false, false, 9007199254740992⟩).1 =
        [(Remote.upsertPostLikes "p1" "u1" true, ⟨true, false, 9007199254740992⟩)] ∧
      ¬ (remoteCalls (PostCard.clickLike (some ⟨"u1"⟩) "p1" (fun _ => none)
        ⟨false, false, 9007199254740992⟩).1 =
        [(Remote.upsertPostLikes "p1" "u1" true,
          ⟨true, false, 9007199254740992 + 1⟩)]) := by
  decide

/-- C3 amended: with a signed-in user and a safe integer `likeCount`
(magnitude below `2^53`), `handleLike` issues exactly one remote call, the
`post_likes` upsert; its `liked` field is the negated flag, and the state at
the moment it is issued already has `isLiked` negated and `likeCount` raised
by one when the new flag is true and lowered by one when it is false. -/
theorem PostCard.handleLike_optimistic (u : User) (postId : String)
    (respond : Remote → Option RemoteError) (s : CardState)
    (hsafe : s.likeCount.natAbs < 2 ^ 53) :
    remoteCalls (PostCard.clickLike (some u) postId respond s).1 =
      [(Remote.upsertPostLikes postId u.id (!s.isLiked),
        ⟨!s.isLiked, s.isFavorite,
          if (!s.isLiked) = true then s.likeCount + 1 else s.likeCount - 1⟩)] := by
  cases s with
  | mk isLiked isFavorite likeCount =>
    have hadd := jsAdd_one_of_safe likeCount hsafe
    have hsub := jsSub_one_of_safe likeCount hsafe
    cases h : respond (Remote.upsertPostLikes postId u.id (!isLiked)) <;>
      cases isLiked <;>
      simp [PostCard.clickLike, PostCard.handleLike, run, remoteCalls] at h ⊢ <;>
      simp [h, run, remoteCalls, hadd, hsub]

/-- Witness for C3: a liked card with 3 likes; the upsert carries
`liked = false` and is issued with the counter already at 2. -/
theorem PostCard.handleLike_optimistic_witness :
    remoteCalls (PostCard.clickLike (some ⟨"u1"⟩) "p1" (fun _ => none)
        ⟨true, false, 3⟩).1 =
      [(Remote.upsertPostLikes "p1" "u1" false, ⟨false, false, 2⟩)] :=
  PostCard.handleLike_optimistic ⟨"u1"⟩ "p1" (fun _ => none) ⟨true, false, 3⟩ (by decide)

/-- C4 as stated fails: for a signed-in user whose card is not a favorite,
it is not the case that the state at the issue of the remote call has
`isFavorite` negated; the insert is issued with `isFavorite` still false. -/
theorem PostCard.handleFavorite_not_optimistic :
    ¬ (∀ c ∈ remoteCalls
          (PostCard.clickFavorite (some ⟨"u1"⟩) "p1" false (fun _ => none)
            ⟨false, false, 0⟩).1,
        c.2.isFavorite = !(false : Bool)) := by
  decide

/-- C4 amended: with a signed-in user, `handleFavorite` issues exactly one
remote call (the delete when the card is a favorite, the insert otherwise)
while the local state is still unchanged, and `isFavorite` ends negated
exactly when that call reported no error and unchanged otherwise. -/
theorem PostCard.handleFavorite_confirmed_update (u : User) (postId : String)
    (hasOnRemove : Bool) (respond : Remote → Option RemoteError) (s : CardState) :
    remoteCalls (PostCard.clickFavorite (some u) postId hasOnRemove respond s).1 =
        [(if s.isFavorite = true then Remote.deleteFavorites postId u.id
            else Remote.insertFavorites postId u.id, s)] ∧
      (PostCard.clickFavorite (some u) postId hasOnRemove respond s).2.isFavorite =
        (if (respond (if s.isFavorite = true then Remote.deleteFavorites postId u.id
              else Remote.insertFavorites postId u.id)).isNone = true
          then !s.isFavorite else s.isFavorite) := by
  cases s with
  | mk isLiked isFavorite likeCount =>
    cases isFavorite
    · cases h : respond (Remote.insertFavorites postId u.id) <;>
        simp [PostCard.clickFavorite, PostCard.handleFavorite, run, remoteCalls, h]
    · cases h : respond (Remote.deleteFavorites postId u.id) <;> cases hasOnRemove <;>
        simp [PostCard.clickFavorite, PostCard.handleFavorite, run, remoteCalls, h]

/-- C5: with a signed-in user, if the favorites insert or delete that the
handler issues reports an error, then after `handleFavorite` finishes
`isFavorite` equals its value before the click and the
`onRemoveFromFavorites` callback has not been called. -/
theorem PostCard.handleFavorite_error_leaves_state (u : User) (postId : String)
    (hasOnRemove : Bool) (respond : Remote → Option RemoteError) (s : CardState)
    (err : RemoteError)
    (herr : respond (if s.isFavorite = true then Remote.deleteFavorites postId u.id
        else Remote.insertFavorites postId u.id) = some err) :
    (PostCard.clickFavorite (some u) postId hasOnRemove respond s).2.isFavorite =
        s.isFavorite ∧
      removedCalls (PostCard.clickFavorite (some u) postId hasOnRemove respond s).1 = [] := by
  cases s with
  | mk isLiked isFavorite likeCount =>
    cases isFavorite <;>
      simp [PostCard.clickFavorite, PostCard.handleFavorite, run, removedCalls] at herr ⊢ <;>
      simp [herr, run, removedCalls]

/-- Witness for C5: a favorite card on the favorites page whose delete fails. -/
theorem PostCard.handleFavorite_error_leaves_state_witness :
    (PostCard.clickFavorite (some ⟨"u1"⟩) "p1" true (fun _ => some ⟨"denied"⟩)
        ⟨false, true, 0⟩).2.isFavorite = true ∧
      removedCalls (PostCard.clickFavorite (some ⟨"u1"⟩) "p1" true
        (fun _ => some ⟨"denied"⟩) ⟨false, true, 0⟩).1 = [] :=
  PostCard.handleFavorite_error_leaves_state ⟨"u1"⟩ "p1" true (fun _ => some ⟨"denied"⟩)
    ⟨false, true, 0⟩ ⟨"denied"⟩ rfl

/-! ### Route gating -/

/-- C6: for every `(user, loading)` pair `ProtectedRoute` renders its
children (whatever they are) if and only if `loading` is false and `user` is
present; when `loading` is true it renders the spinner whatever `user` is,
and when `loading` is false and `user` is absent it renders a redirect to
`/signin`. -/
theorem ProtectedRoute_gate (user : Option User) (loading : Bool) :
    ((∀ children, ProtectedRoute ⟨user, loading⟩ children = children) ↔
        (loading = false ∧ user.isSome = true)) ∧
      (∀ children, ProtectedRoute ⟨user, true⟩ children = Rendered.spinner) ∧
      (∀ children, ProtectedRoute ⟨none, false⟩ children =
        Rendered.navigate "/signin" false) := by
  refine ⟨⟨fun h => ?_, fun h children => ?_⟩, fun _ => rfl, fun _ => rfl⟩
  · have hp := h (Rendered.page Page.Home)
    cases loading <;> cases user <;> simp [ProtectedRoute] at hp ⊢
  · obtain ⟨hl, hu⟩ := h
    cases user <;> simp_all [ProtectedRoute]

/-- C7: for each path in `/profile`, `/settings`, `/create-post`, `/my-posts`,
`/favorites`, when no user is present and auth loading has finished,
`AppRoutes` renders a redirect to `/signin`, and the rendered tree contains
no page component (so the page of that path is not rendered). -/
theorem AppRoutes_protected_redirect (path : String) (hpath : path ∈ protectedPaths) :
    AppRoutes ⟨none, false⟩ path = Rendered.navigate "/signin" false ∧
      (AppRoutes ⟨none, false⟩ path).pages = [] := by
  simp only [protectedPaths, List.mem_cons, List.mem_singleton, List.not_mem_nil,
    or_false] at hpath
  rcases hpath with rfl | rfl | rfl | rfl | rfl <;> decide

/-- Witness for C7: the `/my-posts` route without a session. -/
theorem AppRoutes_protected_redirect_witness :
    AppRoutes ⟨none, false⟩ "/my-posts" = Rendered.navigate "/signin" false ∧
      (AppRoutes ⟨none, false⟩ "/my-posts").pages = [] :=
  AppRoutes_protected_redirect "/my-posts" (by decide)

/-- C8: for each path in `/signin`, `/signup`, `/reset-password` and every
auth value, `AppRoutes` renders a redirect to `/` if and only if a user is
present; when no user is present it renders the form of that path (`SignIn`,
`SignUp`, `ResetPassword` respectively) inside the layout without sidebar. -/
theorem AppRoutes_auth_pages (auth : Auth) :
    (∀ path ∈ authPaths,
        (AppRoutes auth path = Rendered.navigate "/" false ↔ auth.user.isSome = true)) ∧
      (auth.user = none →
        AppRoutes auth "/signin" = Rendered.mainLayout false (Rendered.page Page.SignIn) ∧
        AppRoutes auth "/signup" = Rendered.mainLayout false (Rendered.page Page.SignUp) ∧
        AppRoutes auth "/reset-password" =
          Rendered.mainLayout false (Rendered.page Page.ResetPassword)) := by
  obtain ⟨user, loading⟩ := auth
  refine ⟨fun path hpath => ?_, fun h => ?_⟩
  · simp only [authPaths, List.mem_cons, List.mem_singleton, List.not_mem_nil,
      or_false] at hpath
    rcases hpath with rfl | rfl | rfl <;> cases user <;> simp [AppRoutes, MainLayout]
  · cases user <;> simp_all [AppRoutes, MainLayout]

/-- Witness for C8: the `/signup` route without a session, while auth is
still loading, renders the sign-up form and no redirect. -/
theorem AppRoutes_auth_pages_witness :
    AppRoutes ⟨none, true⟩ "/signup" =
        Rendered.mainLayout false (Rendered.page Page.SignUp) ∧
      (AppRoutes ⟨none, true⟩ "/signup" = Rendered.navigate "/" false ↔
        (⟨none, true⟩ : Auth).user.isSome = true) :=
  ⟨((AppRoutes_auth_pages ⟨none, true⟩).2 rfl).2.1,
    (AppRoutes_auth_pages ⟨none, true⟩).1 "/signup" (by decide)⟩

/-! ### MyPosts: filter -/

/-- The Boolean substring test agrees with the infix relation on characters. -/
theorem includes_iff (s q : String) : includes s q = true ↔ q.data <:+: s.data := by
  simp [includes]

/-- The Boolean tag test of `filterPosts` says that every selected tag is
among the post's tags. -/
theorem matchesTags_iff (selectedTags : List String) (post : Post) :
    (selectedTags.length == 0 ||
        selectedTags.all fun tag =>
          match post.tags with
          | none => false
          | some tags => tags.contains tag) = true ↔
      MatchesTags selectedTags post := by
  unfold MatchesTags
  cases htags : post.tags with
  | none =>
    cases selectedTags with
    | nil => simp
    | cons t ts =>
      simp only [List.length_cons, List.all_cons, Bool.false_and, Bool.or_false,
        Option.getD_none, List.not_mem_nil, List.mem_cons]
      constructor
      · intro h
        simp at h
      · intro h
        exact (h t (Or.inl rfl)).elim
  | some tags =>
    have hc : ∀ x : String, tags.contains x = true ↔ x ∈ tags := fun _ => List.elem_iff
    simp only [Bool.or_eq_true, beq_iff_eq, List.length_eq_zero, List.all_eq_true, hc,
      Option.getD_some]
    constructor
    · rintro (rfl | h)
      · simp
      · exact h
    · intro h
      exact Or.inr h

/-- The Boolean status test of `filterPosts`: the filter is falsy (absent or
empty) or equals the post's status. -/
theorem matchesStatus_iff (statusFilter : Option String) (post : Post) :
    (!truthy statusFilter || post.status == statusFilter) = true ↔
      MatchesStatusOrEmpty statusFilter post := by
  unfold MatchesStatusOrEmpty
  cases statusFilter with
  | none => simp [truthy]
  | some f =>
    by_cases hf : f = ""
    · subst hf
      simp [truthy]
    · simp [truthy, hf]

/-- C9 as stated fails: with the status filter present but empty (the URL
`/my-posts?status=`), a draft post is kept although the filter is neither
absent nor equal to the post's status. -/
theorem MyPosts.filterPosts_empty_status_keeps_all :
    draftPost ∈ MyPosts.filterPosts lowerAscii "" [] (some "") [draftPost] ∧
      ¬ (draftPost ∈ [draftPost] ∧ MatchesSearch lowerAscii "" draftPost ∧
          MatchesTags [] draftPost ∧ MatchesStatus (some "") draftPost) := by
  refine ⟨by decide, ?_⟩
  rintro ⟨-, -, -, h⟩
  revert h
  simp [MatchesStatus, draftPost]

/-- C9 amended: for every list of posts (title and content are strings),
every `searchQuery`, `selectedTags` and `statusFilter`, a post is in the
result of `filterPosts` if and only if it is in the input, its lower-cased
title or lower-cased content contains the lower-cased query, every selected
tag is among its tags, and the status filter is absent or empty or equals its
status; the result is a sublist of the input, so it keeps the input order. -/
theorem MyPosts.filterPosts_spec (toLowerCase : String → String) (searchQuery : String)
    (selectedTags : List String) (statusFilter : Option String) (posts : List Post) :
    (∀ post, post ∈ MyPosts.filterPosts toLowerCase searchQuery selectedTags statusFilter posts ↔
        (post ∈ posts ∧ MatchesSearch toLowerCase searchQuery post ∧
          MatchesTags selectedTags post ∧ MatchesStatusOrEmpty statusFilter post)) ∧
      List.Sublist
        (MyPosts.filterPosts toLowerCase searchQuery selectedTags statusFilter posts) posts := by
  refine ⟨fun post => ?_, List.filter_sublist _⟩
  unfold MyPosts.filterPosts
  rw [List.mem_filter]
  simp only [Bool.and_eq_true]
  rw [matchesTags_iff, matchesStatus_iff]
  simp only [Bool.or_eq_true, includes_iff, MatchesSearch]
  tauto

/-- Witness for C9: on three sample posts, the query `HELLO` with tag
`news` and no status filter keeps exactly the first post. -/
theorem MyPosts.filterPosts_spec_witness :
    draftPost ∈ MyPosts.filterPosts lowerAscii "HELLO" ["news"] none
        [draftPost, publishedPost, viewedPost] ∧
      MyPosts.filterPosts lowerAscii "HELLO" ["news"] none
        [draftPost, publishedPost, viewedPost] = [draftPost] :=
  ⟨((MyPosts.filterPosts_spec lowerAscii "HELLO" ["news"] none
      [draftPost, publishedPost, viewedPost]).1 draftPost).2
      ⟨by decide, Or.inl (by decide), by simp [MatchesTags, draftPost], Or.inl rfl⟩, by decide⟩

/-! ### MyPosts: sort -/

/-- Inserting into a list only consults the relation between the new element
and the list's members. -/
theorem orderedInsert_agree {α : Type} (r r2 : α → α → Prop) [DecidableRel r]
    [DecidableRel r2] (a : α) :
    ∀ l : List α, (∀ b ∈ l, (r a b ↔ r2 a b)) →
      List.orderedInsert r a l = List.orderedInsert r2 a l
  | [], _ => rfl
  | b :: l, h => by
    have hb : r a b ↔ r2 a b := h b (List.mem_cons_self b l)
    have ih := orderedInsert_agree r r2 a l (fun c hc => h c (List.mem_cons_of_mem b hc))
    by_cases hr : r a b
    · simp [List.orderedInsert, hr, hb.mp hr]
    · have hr2 : ¬ r2 a b := fun h2 => hr (hb.mpr h2)
      simp [List.orderedInsert, hr, hr2, ih]

/-- Two relations that agree on the members of a list sort it alike. -/
theorem insertionSort_agree {α : Type} (r r2 : α → α → Prop) [DecidableRel r]
    [DecidableRel r2] :
    ∀ l : List α, (∀ a ∈ l, ∀ b ∈ l, (r a b ↔ r2 a b)) →
      List.insertionSort r l = List.insertionSort r2 l
  | [], _ => rfl
  | a :: l, h => by
    have ih := insertionSort_agree r r2 l
      (fun x hx y hy => h x (List.mem_cons_of_mem a hx) y (List.mem_cons_of_mem a hy))
    rw [List.insertionSort, List.insertionSort, ih]
    apply orderedInsert_agree
    intro b hb
    exact h a (List.mem_cons_self a l) b
      (List.mem_cons_of_mem a ((List.mem_insertionSort r2).mp hb))

/-- The sort returns a permutation of its input, whatever the comparator. -/
theorem sort_perm {α : Type} (compareFn : α → α → Option Int) (xs : List α) :
    List.Perm (sort compareFn xs) xs :=
  List.perm_insertionSort _ xs

/-- When the comparator orders the members of the list by an integer key
(`compareFn a b` is not positive exactly when `key a ≤ key b`), the sorted
list is non-decreasing in that key. -/
theorem sort_sorted_of_key {α : Type} (compareFn : α → α → Option Int) (key : α → Int)
    (xs : List α)
    (h : ∀ a ∈ xs, ∀ b ∈ xs, ((compareFn a b).getD 0 ≤ 0 ↔ key a ≤ key b)) :
    List.Pairwise (fun a b => key a ≤ key b) (sort compareFn xs) := by
  have hagree := insertionSort_agree (fun a b => (compareFn a b).getD 0 ≤ 0)
    (fun a b => key a ≤ key b) xs h
  haveI : IsTotal α (fun a b => key a ≤ key b) := ⟨fun a b => le_total (key a) (key b)⟩
  haveI : IsTrans α (fun a b => key a ≤ key b) := ⟨fun _ _ _ hab hbc => le_trans hab hbc⟩
  unfold sort
  rw [hagree]
  exact List.sorted_insertionSort (fun a b => key a ≤ key b) xs

/-- The value of `views || 0` is the view count with a missing count read as 0. -/
theorem orZero_eq_getD (v : Option Int) : orZero v = v.getD 0 := by
  cases v with
  | none => rfl
  | some n =>
    by_cases hn : n = 0
    · simp [orZero, hn]
    · simp [orZero, hn]

/-- C10: for every list of posts with valid `created_at` timestamps (`Date`
gives each its time value `time`), `sortPosts` returns a permutation of the
list for each of the three options, and the result is in non-increasing
`created_at` order for `newest`, in non-decreasing `created_at` order for
`oldest`, and in non-increasing order of views for `popular`, where a missing
views value counts as 0. -/
theorem MyPosts.sortPosts_sorted (Date : String → Option Int) (time : Post → Int)
    (posts : List Post) (hvalid : ∀ p ∈ posts, Date p.created_at = some (time p)) :
    (List.Perm (MyPosts.sortPosts Date "newest" posts) posts ∧
        List.Pairwise (fun a b => time b ≤ time a) (MyPosts.sortPosts Date "newest" posts)) ∧
      (List.Perm (MyPosts.sortPosts Date "oldest" posts) posts ∧
        List.Pairwise (fun a b => time a ≤ time b) (MyPosts.sortPosts Date "oldest" posts)) ∧
      (List.Perm (MyPosts.sortPosts Date "popular" posts) posts ∧
        List.Pairwise (fun a b => b.views.getD 0 ≤ a.views.getD 0)
          (MyPosts.sortPosts Date "popular" posts)) := by
  have hnew : MyPosts.sortPosts Date "newest" posts =
      sort (fun a b => dateSub (Date b.created_at) (Date a.created_at)) posts := by
    simp [MyPosts.sortPosts]
  have hold : MyPosts.sortPosts Date "oldest" posts =
      sort (fun a b => dateSub (Date a.created_at) (Date b.created_at)) posts := by
    simp [MyPosts.sortPosts]
  have hpop : MyPosts.sortPosts Date "popular" posts =
      sort (fun a b => some (orZero b.views - orZero a.views)) posts := by
    simp [MyPosts.sortPosts]
  rw [hnew, hold, hpop]
  refine ⟨⟨sort_perm _ _, ?_⟩, ⟨sort_perm _ _, ?_⟩, ⟨sort_perm _ _, ?_⟩⟩
  · have hs := sort_sorted_of_key
      (fun a b => dateSub (Date b.created_at) (Date a.created_at)) (fun p => - time p) posts
      (by
        intro a ha b hb
        simp only [hvalid a ha, hvalid b hb, dateSub, Option.getD_some]
        constructor <;> intro h <;> linarith)
    exact hs.imp (fun h => by simp only [neg_le_neg_iff] at h; exact h)
  · exact sort_sorted_of_key
      (fun a b => dateSub (Date a.created_at) (Date b.created_at)) time posts
      (by
        intro a ha b hb
        simp only [hvalid a ha, hvalid b hb, dateSub, Option.getD_some]
        constructor <;> intro h <;> linarith)
  · have hs := sort_sorted_of_key
      (fun a b => some (orZero b.views - orZero a.views)) (fun p => - p.views.getD 0) posts
      (by
        intro a _ b _
        simp only [Option.getD_some, orZero_eq_getD]
        constructor <;> intro h <;> linarith)
    exact hs.imp (fun h => by simp only [neg_le_neg_iff] at h; exact h)

/-- Witness for C10: three sample posts with valid timestamps; `newest`
puts them in the order third, first, second. -/
theorem MyPosts.sortPosts_sorted_witness :
    MyPosts.sortPosts sampleDate "newest" [draftPost, publishedPost, viewedPost] =
        [viewedPost, draftPost, publishedPost] ∧
      List.Pairwise (fun a b => sampleTime b ≤ sampleTime a)
        (MyPosts.sortPosts sampleDate "newest" [draftPost, publishedPost, viewedPost]) :=
  ⟨by decide,
    (MyPosts.sortPosts_sorted sampleDate sampleTime [draftPost, publishedPost, viewedPost]
      (by decide)).1.2⟩

/-! ### Home: search filter -/

/-- C11: for every list of fetched posts and every `searchQuery`, a post is in
`filteredPosts` if and only if it is in `posts` and its title is present and
its lower-cased title contains the lower-cased query, or its content is
present and its lower-cased content contains the lower-cased query;
`filteredPosts` is a sublist of `posts`, so it keeps their order. -/
theorem Home.filteredPosts_spec (toLowerCase : String → String) (searchQuery : String)
    (posts : List FeedPost) :
    (∀ post, post ∈ Home.filteredPosts toLowerCase searchQuery posts ↔
        (post ∈ posts ∧
          ((∃ title, post.title = some title ∧
              (toLowerCase searchQuery).data <:+: (toLowerCase title).data) ∨
            (∃ content, post.content = some content ∧
              (toLowerCase searchQuery).data <:+: (toLowerCase content).data)))) ∧
      List.Sublist (Home.filteredPosts toLowerCase searchQuery posts) posts := by
  refine ⟨fun post => ?_, List.filter_sublist _⟩
  unfold Home.filteredPosts
  rw [List.mem_filter]
  cases ht : post.title <;> cases hc : post.content <;>
    simp [includes_iff]

/-! ### Database helpers -/

/-- C12: with an authenticated user, for every argument of `createPost`
(missing, `null`, non-string and unknown values included) the one write is the
insert of a row whose category is the given category when that is a member of
`POST_CATEGORIES` and `other` otherwise, and whose status is the given status
when that is a member of `POST_STATUSES` and `published` otherwise; so the
inserted category is a member of `POST_CATEGORIES` and the inserted status a
member of `POST_STATUSES`. -/
theorem createPost_validates (u : User) (respond : DbWrite → DbResponse)
    (args : CreatePostArgs) :
    ∃ row, (createPost (some u) respond args).1 = [DbWrite.insertPosts row] ∧
      row.category =
        (if arrayIncludes POST_CATEGORIES args.category = true then args.category
          else JsValue.str "other") ∧
      row.status =
        (if arrayIncludes POST_STATUSES args.status = true then args.status
          else JsValue.str "published") ∧
      (∃ c ∈ POST_CATEGORIES, row.category = JsValue.str c) ∧
      (∃ s ∈ POST_STATUSES, row.status = JsValue.str s) := by
  have hcat : ∀ v : JsValue,
      (if (!arrayIncludes POST_CATEGORIES (withDefault v (.str "other"))) = true
          then JsValue.str "other" else withDefault v (.str "other")) =
        (if arrayIncludes POST_CATEGORIES v = true then v else JsValue.str "other") := by
    intro v
    cases v <;> simp [withDefault, arrayIncludes]
  have hst : ∀ v : JsValue,
      (if (!arrayIncludes POST_STATUSES (withDefault v (.str "published"))) = true
          then JsValue.str "published" else withDefault v (.str "published")) =
        (if arrayIncludes POST_STATUSES v = true then v else JsValue.str "published") := by
    intro v
    cases v <;> simp [withDefault, arrayIncludes]
  have hmemc : ∀ v : JsValue, ∃ c ∈ POST_CATEGORIES,
      (if arrayIncludes POST_CATEGORIES v = true then v else JsValue.str "other") =
        JsValue.str c := by
    intro v
    by_cases h : arrayIncludes POST_CATEGORIES v = true
    · cases v with
      | str s =>
        have hs : POST_CATEGORIES.contains s = true := h
        exact ⟨s, List.elem_iff.mp hs, by rw [if_pos h]⟩
      | _ => simp [arrayIncludes] at h
    · exact ⟨"other", by decide, by simp [h]⟩
  have hmems : ∀ v : JsValue, ∃ s ∈ POST_STATUSES,
      (if arrayIncludes POST_STATUSES v = true then v else JsValue.str "published") =
        JsValue.str s := by
    intro v
    by_cases h : arrayIncludes POST_STATUSES v = true
    · cases v with
      | str s =>
        have hs : POST_STATUSES.contains s = true := h
        exact ⟨s, List.elem_iff.mp hs, by rw [if_pos h]⟩
      | _ => simp [arrayIncludes] at h
    · exact ⟨"published", by decide, by simp [h]⟩
  refine ⟨⟨args.title, args.content,
    if arrayIncludes POST_CATEGORIES args.category = true then args.category
      else JsValue.str "other",
    withDefault args.image_url .null,
    if arrayIncludes POST_STATUSES args.status = true then args.status
      else JsValue.str "published", u.id⟩, ?_, rfl, rfl, hmemc _, hmems _⟩
  unfold createPost
  simp only [hcat, hst]
  cases h : (respond (DbWrite.insertPosts ⟨args.title, args.content,
    if arrayIncludes POST_CATEGORIES args.category = true then args.category
      else JsValue.str "other",
    withDefault args.image_url .null,
    if arrayIncludes POST_STATUSES args.status = true then args.status
      else JsValue.str "published", u.id⟩)).error <;> simp [h]

/-- C13 (code evaluated at the failing input): with an authenticated user and
`updates` whose `category` and `status` fields are the empty string,
`updatePost` writes both fields unchanged, and the empty string is a member
of neither `POST_CATEGORIES` nor `POST_STATUSES`. -/
theorem updatePost_empty_fields_unvalidated :
    (updatePost (some ⟨"u1"⟩) (fun _ => ⟨some "row", none⟩) "2024-01-01T00:00:00.000Z" "p1"
        ⟨.str "", .str "", []⟩).1 =
      [DbWrite.updatePosts ⟨.str "", .str "", []⟩ "2024-01-01T00:00:00.000Z" "p1" "u1"] ∧
      arrayIncludes POST_CATEGORIES (.str "") = false ∧
      arrayIncludes POST_STATUSES (.str "") = false := by
  decide

/-- C14: when the auth lookup returns no user, `createPost`, `updatePost`,
`updateProfile` and `deletePost` issue no table write, whatever their
arguments, and return a failure whose error message is
`User not authenticated`, with `data` null (`success` false for `deletePost`). -/
theorem no_session_no_write (respond : DbWrite → DbResponse) (now : String)
    (args : CreatePostArgs) (postId : String) (updates : PostUpdates)
    (profile : List (String × JsValue)) :
    createPost none respond args = ([], ⟨none, some ⟨"User not authenticated"⟩⟩) ∧
      updatePost none respond now postId updates =
        ([], ⟨none, some ⟨"User not authenticated"⟩⟩) ∧
      updateProfile none respond now profile =
        ([], ⟨none, some ⟨"User not authenticated"⟩⟩) ∧
      deletePost none respond postId =
        ([], ⟨false, some ⟨"User not authenticated"⟩⟩) :=
  ⟨rfl, rfl, rfl, rfl⟩

/-! ### CreatePost -/

/-- C15: for every `(title, content, category)`, `handleSubmit` shows the
`Missing fields` toast and makes no storage or table call if and only if the
title is empty after trimming, or the content is empty after trimming, or the
category is empty; every row it inserts carries the trimmed title and
content; and an accepted submission without image by a signed-in user does
insert that row. -/
theorem CreatePost.handleSubmit_validates (trim : String → String) (env : SubmitEnv)
    (user : Option User) (title content category : String) (image : Option File) :
    ((SubmitEvent.toast ⟨"Missing fields", some "Please fill in all required fields", "error"⟩ ∈
          CreatePost.handleSubmit trim env user title content category image ∧
        (CreatePost.handleSubmit trim env user title content category image).all
          (fun e => !e.isRemote) = true) ↔
        (trim title = "" ∨ trim content = "" ∨ category = "")) ∧
      (∀ row, SubmitEvent.insertPosts row ∈
          CreatePost.handleSubmit trim env user title content category image →
        row.title = trim title ∧ row.content = trim content) ∧
      (¬ (trim title = "" ∨ trim content = "" ∨ category = "") →
        ∀ u, user = some u → image = none →
          SubmitEvent.insertPosts
              ⟨trim title, trim content, category, none, u.id, "published", env.now⟩ ∈
            CreatePost.handleSubmit trim env user title content category image) := by
  by_cases hguard : trim title = "" ∨ trim content = "" ∨ category = ""
  · have hg : (trim title == "" || trim content == "" || category == "") = true := by
      simpa [or_assoc] using hguard
    simp [CreatePost.handleSubmit, hg, hguard, SubmitEvent.isRemote]
  · have hg : (trim title == "" || trim content == "" || category == "") = false := by
      simpa [not_or, and_assoc] using hguard
    refine ⟨?_, ?_, ?_⟩
    · simp only [hguard, iff_false, not_and]
      intro hmem
      exfalso
      revert hmem
      unfold CreatePost.handleSubmit
      simp only [hg]
      cases user <;> cases image <;> cases env.postError <;> cases env.uploadError <;>
        cases env.createBucketError <;> cases env.bucketExists <;> simp
    · intro row
      unfold CreatePost.handleSubmit
      simp only [hg]
      cases user <;> cases image <;> cases env.postError <;> cases env.uploadError <;>
        cases env.createBucketError <;> cases env.bucketExists <;> simp <;>
        (intro h; subst h; exact ⟨rfl, rfl⟩)
    · intro _ u hu hi
      subst hu hi
      unfold CreatePost.handleSubmit
      simp only [hg]
      cases env.postError <;> simp

/-- Witness for C15: a complete form without image is accepted and the
inserted row carries the trimmed title and content. -/
theorem CreatePost.handleSubmit_validates_witness :
    SubmitEvent.insertPosts
        ⟨"Hello", "Body", "travel", none, "u1", "published", "2024-01-01T00:00:00.000Z"⟩ ∈
      CreatePost.handleSubmit trimSpaces okEnv (some ⟨"u1"⟩) " Hello " "Body " "travel" none :=
  (CreatePost.handleSubmit_validates trimSpaces okEnv (some ⟨"u1"⟩) " Hello " "Body "
    "travel" none).2.2 (by decide) ⟨"u1"⟩ rfl rfl

/-- C16 as stated fails: a file of exactly `5 * 1024 * 1024` bytes is not
under 5MB, yet `handleImageChange` accepts it as the post image without a
toast. -/
theorem CreatePost.handleImageChange_accepts_exact_limit :
    CreatePost.handleImageChange (fun file => file.name) (some ⟨"photo.png", 5242880⟩)
        ⟨none, ""⟩ = ([], ⟨some ⟨"photo.png", 5242880⟩, "photo.png"⟩) ∧
      ¬ ((5242880 : Nat) < 5 * 1024 * 1024) := by
  decide

/-- C16 amended: for every selected file, a file of at most `5 * 1024 * 1024`
bytes is accepted as the post image (and its data URL becomes the preview)
without a toast, and a file over that size is rejected with the
`File too large` toast and leaves `image` and `imagePreview` unchanged. -/
theorem CreatePost.handleImageChange_limit (readAsDataURL : File → String) (file : File)
    (s : ImageState) :
    (file.size ≤ 5 * 1024 * 1024 →
        CreatePost.handleImageChange readAsDataURL (some file) s =
          ([], ⟨some file, readAsDataURL file⟩)) ∧
      (5 * 1024 * 1024 < file.size →
        CreatePost.handleImageChange readAsDataURL (some file) s =
          ([⟨"File too large", some "Please select an image under 5MB", "error"⟩], s)) := by
  constructor
  · intro h
    have h2 : ¬ file.size > 5 * 1024 * 1024 := Nat.not_lt.mpr h
    simp [CreatePost.handleImageChange, h2]
  · intro h
    have h2 : file.size > 5 * 1024 * 1024 := h
    simp [CreatePost.handleImageChange, h2]

/-- Witness for C16: a file one byte over the limit is rejected and the
state is unchanged. -/
theorem CreatePost.handleImageChange_limit_witness :
    CreatePost.handleImageChange (fun file => file.name) (some ⟨"big.png", 5242881⟩)
        ⟨none, ""⟩ =
      ([⟨"File too large", some "Please select an image under 5MB", "error"⟩], ⟨none, ""⟩) :=
  (CreatePost.handleImageChange_limit (fun file => file.name) ⟨"big.png", 5242881⟩
    ⟨none, ""⟩).2 (by decide)

/-! ### SignUp -/

/-- C17: for every `(email, password, confirmPassword, username)` and every
outcome of the remote call, `handleSubmit` calls `signUp` if and only if
`password` equals `confirmPassword`; when they differ its only effect is the
`Passwords do not match` toast, so the loading flag keeps its value. -/
theorem SignUp.handleSubmit_password_gate (signUpError : Option RemoteError)
    (email password confirmPassword username : String) :
    ((∃ e p, SignUpEvent.signUp e p ∈
          SignUp.handleSubmit signUpError email password confirmPassword username) ↔
        password = confirmPassword) ∧
      (password ≠ confirmPassword →
        SignUp.handleSubmit signUpError email password confirmPassword username =
            [SignUpEvent.toast ⟨"Error", some "Passwords do not match", "error"⟩] ∧
          ∀ loading, SignUpEvent.loadingAfter loading
            (SignUp.handleSubmit signUpError email password confirmPassword username) =
              loading) := by
  by_cases h : password = confirmPassword
  · subst h
    cases signUpError <;> simp [SignUp.handleSubmit]
  · simp [SignUp.handleSubmit, h, SignUpEvent.loadingAfter]

/-- Witness for C17: mismatched passwords give the toast only, and the
loading flag stays false. -/
theorem SignUp.handleSubmit_password_gate_witness :
    SignUp.handleSubmit none "a@b.c" "secret1" "secret2" "ann" =
        [SignUpEvent.toast ⟨"Error", some "Passwords do not match", "error"⟩] ∧
      SignUpEvent.loadingAfter false
        (SignUp.handleSubmit none "a@b.c" "secret1" "secret2" "ann") = false :=
  ⟨((SignUp.handleSubmit_password_gate none "a@b.c" "secret1" "secret2" "ann").2
      (by decide)).1,
    ((SignUp.handleSubmit_password_gate none "a@b.c" "secret1" "secret2" "ann").2
      (by decide)).2 false⟩

/-! ### App -/

/-- What `initializeApp` does on every path: `resetDatabase` is called exactly
when `getSession` returned no error and the session's user role is
`service_role`, and `isInitializing` is false at the end. -/
theorem App.initializeApp_calls_and_finishes (getSession : GetSession)
    (upsert : Except RemoteError (Option RemoteError)) (rpcRejected : Option RemoteError)
    (s : AppState) :
    ((App.initializeApp getSession upsert rpcRejected s).1 = true ↔
        (getSession.error = none ∧
          (getSession.session.bind fun session => session.user.bind fun user => user.role) =
            some "service_role")) ∧
      (App.initializeApp getSession upsert rpcRejected s).2.isInitializing = false := by
  unfold App.initializeApp
  cases herr : getSession.error with
  | some authError => simp
  | none =>
    by_cases hrole :
        (getSession.session.bind fun session => session.user.bind fun user => user.role) =
          some "service_role"
    · cases hdb : truthy (resetDatabase upsert rpcRejected).error <;> simp [hrole, hdb]
    · simp [hrole]

/-- C18 (code evaluated at the failing input): the session has role
`service_role` and the `profiles` upsert of `resetDatabase` resolves with an
error whose message is empty.  `resetDatabase` is called and reports failure,
yet `initializeApp` finishes with `isInitializing` false and `initError`
still null, because the empty message is falsy in `if (dbError)`. -/
theorem App.initializeApp_empty_db_error_not_reported :
    (resetDatabase (.ok (some ⟨""⟩)) none).success = false ∧
      App.initializeApp ⟨some ⟨some ⟨some "service_role"⟩⟩, none⟩ (.ok (some ⟨""⟩)) none
        ⟨true, none⟩ = (true, ⟨false, none⟩) := by
  decide

/-! ### PostCard without a session -/

/-- C19: for every `PostCard` state, when no user is signed in `handleLike`
and `handleFavorite` leave `isLiked`, `likeCount` and `isFavorite` unchanged
and issue no remote write (they only show the sign-in toast). -/
theorem PostCard.no_session_no_effect (postId : String) (hasOnRemove : Bool)
    (respond : Remote → Option RemoteError) (s : CardState) :
    (PostCard.clickLike none postId respond s).2 = s ∧
      remoteCalls (PostCard.clickLike none postId respond s).1 = [] ∧
      (PostCard.clickFavorite none postId hasOnRemove respond s).2 = s ∧
      remoteCalls (PostCard.clickFavorite none postId hasOnRemove respond s).1 = [] ∧
      removedCalls (PostCard.clickFavorite none postId hasOnRemove respond s).1 = [] := by
  simp [PostCard.clickLike, PostCard.clickFavorite, PostCard.handleLike,
    PostCard.handleFavorite, run, remoteCalls, removedCalls]

/-! ### MyPosts: real-time UPDATE -/

/-- C20: for every posts list and every UPDATE payload, the new list has the
same length as the old one; at every position, a post whose id equals
`payload.new.id` is replaced by `payload.new` and any other post is
unchanged; and if no post has that id the list is unchanged. -/
theorem MyPosts.onUpdate_patches_in_place (newRow oldRow : Post) (current : List Post) :
    (MyPosts.onPostgresChanges ⟨"UPDATE", newRow, oldRow⟩ current).length = current.length ∧
      (∀ i : Nat, (MyPosts.onPostgresChanges ⟨"UPDATE", newRow, oldRow⟩ current)[i]? =
        (current[i]?).map (fun post => if post.id = newRow.id then newRow else post)) ∧
      ((∀ post ∈ current, post.id ≠ newRow.id) →
        MyPosts.onPostgresChanges ⟨"UPDATE", newRow, oldRow⟩ current = current) := by
  have h : MyPosts.onPostgresChanges ⟨"UPDATE", newRow, oldRow⟩ current =
      current.map (fun post => if post.id = newRow.id then newRow else post) := by
    simp [MyPosts.onPostgresChanges]
  rw [h]
  refine ⟨List.length_map _ _, fun i => by simp, fun hne => ?_⟩
  conv_rhs => rw [← List.map_id current]
  apply List.map_congr_left
  intro post hpost
  simp [hne post hpost]

/-- Witness for C20: an UPDATE for a post that is not in the list leaves the
list unchanged. -/
theorem MyPosts.onUpdate_patches_in_place_witness :
    MyPosts.onPostgresChanges ⟨"UPDATE", viewedPost, viewedPost⟩ [draftPost, publishedPost] =
      [draftPost, publishedPost] :=
  (MyPosts.onUpdate_patches_in_place viewedPost viewedPost [draftPost, publishedPost]).2.2
    (by decide)

/-! ### MyPosts: deletion and uniqueness of ids -/

/-- The DELETE branch of the subscription keeps the posts whose id differs
from `payload.old.id`. -/
theorem onDelete_eq_filter (newRow oldRow : Post) (current : List Post) :
    MyPosts.onPostgresChanges ⟨"DELETE", newRow, oldRow⟩ current =
      current.filter (fun post => decide (post.id ≠ oldRow.id)) := by
  have hf : (fun post : Post => post.id != oldRow.id) =
      (fun post : Post => decide (post.id ≠ oldRow.id)) := by
    funext post
    by_cases h : post.id = oldRow.id <;> simp [h]
  simp [MyPosts.onPostgresChanges, hf]

/-- A successful `handleDeletePost` sets the state to the posts of the list
captured by its render whose id differs from `postId`, whatever the state is
when the remote delete returns. -/
theorem handleDeletePost_success (postId : String) (posts current : List Post) :
    (MyPosts.handleDeletePost none postId posts current).2 =
      posts.filter (fun post => decide (post.id ≠ postId)) := by
  have hf : (fun post : Post => post.id != postId) =
      (fun post : Post => decide (post.id ≠ postId)) := by
    funext post
    by_cases h : post.id = postId <;> simp [h]
  simp [MyPosts.handleDeletePost, hf]

/-- The DELETE branch of the subscription is exact on the current list and
idempotent: a second DELETE event for the same id changes nothing, and
neither does one that follows a local delete whose captured list was the
current list. -/
theorem onDelete_exact_idempotent (postId : String) (newRow oldRow : Post)
    (posts : List Post) :
    MyPosts.onPostgresChanges ⟨"DELETE", newRow, { oldRow with id := postId }⟩ posts =
        posts.filter (fun post => decide (post.id ≠ postId)) ∧
      MyPosts.onPostgresChanges ⟨"DELETE", newRow, { oldRow with id := postId }⟩
          (MyPosts.handleDeletePost none postId posts posts).2 =
        (MyPosts.handleDeletePost none postId posts posts).2 ∧
      MyPosts.onPostgresChanges ⟨"DELETE", newRow, { oldRow with id := postId }⟩
          (MyPosts.onPostgresChanges ⟨"DELETE", newRow, { oldRow with id := postId }⟩ posts) =
        MyPosts.onPostgresChanges ⟨"DELETE", newRow, { oldRow with id := postId }⟩ posts := by
  have hd := onDelete_eq_filter newRow { oldRow with id := postId }
  simp only at hd
  refine ⟨hd posts, ?_, ?_⟩
  · rw [handleDeletePost_success, hd, List.filter_filter]
    simp
  · rw [hd, hd, List.filter_filter]
    simp

/-- C21 (code evaluated at the failing input): the render shows posts `p1`
and `p2`; while the remote delete of `p1` is awaited an INSERT event adds
`p3` to the list.  The successful `handleDeletePost` then sets the list to
`p2` alone, the filter of the stale captured list, although the posts of the
list whose id differs from `p1` are `p3` and `p2`. -/
theorem MyPosts.handleDeletePost_drops_concurrent_insert :
    MyPosts.onPostgresChanges ⟨"INSERT", viewedPost, viewedPost⟩ [draftPost, publishedPost] =
        [viewedPost, draftPost, publishedPost] ∧
      (MyPosts.handleDeletePost none "p1" [draftPost, publishedPost]
          [viewedPost, draftPost, publishedPost]).2 = [publishedPost] ∧
      [viewedPost, draftPost, publishedPost].filter (fun post => decide (post.id ≠ "p1")) =
        [viewedPost, publishedPost] := by
  decide

/-- C22 as stated fails: the list holding one post has pairwise distinct
ids, and after an INSERT event whose new row has the id of that post the ids
are no longer pairwise distinct. -/
theorem MyPosts.insert_existing_id_duplicates :
    (postIds [draftPost]).Nodup ∧
      ¬ (postIds (MyPosts.onPostgresChanges ⟨"INSERT", draftPost, draftPost⟩
        [draftPost])).Nodup := by
  decide

/-- C22 amended: if the ids of the posts list are pairwise distinct, then
after any UPDATE or DELETE event (or an event of another type) with any
payload, and after any INSERT event whose new row has an id that is not yet
in the list, the ids of the resulting list are still pairwise distinct. -/
theorem MyPosts.ids_stay_unique (payload : Payload) (current : List Post)
    (hnodup : (postIds current).Nodup)
    (hfresh : payload.eventType = "INSERT" → payload.new.id ∉ postIds current) :
    (postIds (MyPosts.onPostgresChanges payload current)).Nodup := by
  unfold MyPosts.onPostgresChanges
  by_cases hins : payload.eventType = "INSERT"
  · rw [if_pos hins]
    exact List.nodup_cons.mpr ⟨hfresh hins, hnodup⟩
  · by_cases hdel : payload.eventType = "DELETE"
    · rw [if_neg hins, if_pos hdel]
      exact hnodup.sublist ((List.filter_sublist current).map _)
    · by_cases hupd : payload.eventType = "UPDATE"
      · rw [if_neg hins, if_neg hdel, if_pos hupd]
        have hids : postIds (current.map fun post =>
            if post.id = payload.new.id then payload.new else post) = postIds current := by
          unfold postIds
          rw [List.map_map]
          apply List.map_congr_left
          intro post _
          by_cases h : post.id = payload.new.id <;> simp [h]
        rw [hids]
        exact hnodup
      · rw [if_neg hins, if_neg hdel, if_neg hupd]
        exact hnodup

/-- Witness for C22: an INSERT of a post with a fresh id into a list of two
posts keeps the ids distinct. -/
theorem MyPosts.ids_stay_unique_witness :
    (postIds (MyPosts.onPostgresChanges ⟨"INSERT", viewedPost, viewedPost⟩
      [draftPost, publishedPost])).Nodup :=
  MyPosts.ids_stay_unique ⟨"INSERT", viewedPost, viewedPost⟩ [draftPost, publishedPost]
    (by decide) (by decide)

end Lumina
